import Mathlib

/-!
Shallow embedding of `api/common/conf_azure.go` (package `common`) from the
goofys repository, together with proofs about its azure credential / blob
configuration resolution logic.

External collaborators (the Go standard library's `net/url` and `os`, the
go-autorest SDK, the azure CLI profile and token-cache readers, the ini file
reader, and the control-plane HTTP client) are modelled as oracle fields of
explicit "world" structures; the control flow of the repository's own
functions is translated statement by statement.
-/

/-- Errors are the plain descriptive strings produced by `fmt.Errorf`. -/
abbrev GoError := String

/-! ## String helpers modelling Go standard library calls -/

/-- Models `strings.Trim(s, cutset)`: removes all leading and trailing
characters contained in `cutset`. -/
def goTrim (s cutset : String) : String :=
  let cs := cutset.toList
  String.mk (((s.toList.dropWhile (fun c => cs.contains c)).reverse.dropWhile
      (fun c => cs.contains c)).reverse)

/-- Models `strings.Split(s, sep)` for a single-character separator, on the
character list of `s`: `strings.Split("", sep)` is `[""]`, and each
occurrence of `sep` starts a new group. -/
def splitOnChar (sep : Char) : List Char → List (List Char)
  | [] => [[]]
  | c :: rest =>
    if c == sep then [] :: splitOnChar sep rest
    else
      match splitOnChar sep rest with
      | [] => [[c]]
      | g :: gs => (c :: g) :: gs

/-- Rejoins groups with the separator: inverse of `splitOnChar` on the
remainder kept unsplit by `strings.SplitN`. -/
def joinWithChar (sep : Char) : List (List Char) → List Char
  | [] => []
  | [g] => g
  | g :: gs => g ++ sep :: joinWithChar sep gs

/-- Models the pair `(s[:i], s[i+1:])` for `i := strings.Index(s, sep)` with a
single-character `sep`, when `i != -1`; returns `none` when `strings.Index`
would return `-1` (`sep` does not occur in `s`). -/
def splitAtFirst (s : String) (sep : Char) : Option (String × String) :=
  match splitOnChar sep s.toList with
  | [] => none
  | [_] => none
  | p :: rest => some (String.mk p, String.mk (joinWithChar sep rest))

/-- Models `strings.SplitN(s, sep, n)` for `n > 0` and a single-character
separator: at most `n` substrings, the last one holding the unsplit
remainder. -/
def goSplitN (s : String) (sep : Char) (n : Nat) : List String :=
  let parts := splitOnChar sep s.toList
  if parts.length ≤ n then parts.map String.mk
  else (parts.take (n - 1)).map String.mk
    ++ [String.mk (joinWithChar sep (parts.drop (n - 1)))]

/-! ## Data model: authorizers, tokens, subscriptions -/

/-- Opaque service-principal token handle (`*adal.ServicePrincipalToken`). -/
abbrev SPT := String

/-- Opaque client-credentials config handle (`auth.ClientCredentialsConfig`). -/
abbrev ClientCred := String

/-- Opaque handle for the settings read by `auth.GetSettingsFromFile()`. -/
abbrev FileSettings := String

/-- Opaque handle for `adal.OAuthConfig`. -/
abbrev OAuthCfg := String

/-- Opaque handle for an `adal.Token` produced by `cli.Token.ToADALToken()`. -/
abbrev ADALToken := String

/-- An `autorest.Authorizer` capability: either a bearer authorizer wrapped
around a service-principal token by `autorest.NewBearerAuthorizer`, or an
authorizer produced directly by an SDK helper. -/
inductive Authz where
  | bearer (spt : SPT)
  | sdk (tag : String)
deriving DecidableEq, Repr

/-- The fields of `cli.Token` read by this module. -/
structure Token where
  Authority : String
  Resource : String
  ClientID : String
deriving DecidableEq, Repr

/-- The fields of `cli.Subscription` read by this module. -/
structure Subscription where
  ID : String
  TenantID : String
  IsDefault : Bool
deriving DecidableEq, Repr

/-- The fields of `cli.Profile` read by this module. -/
structure Profile where
  Subscriptions : List Subscription
deriving DecidableEq, Repr

/-- The parts of `auth.EnvironmentSettings` read or written by the chain:
the `Values` map entries for `auth.Resource`, `auth.ActiveDirectoryEndpoint`
and `auth.ClientID`, plus the two `Environment` fallback endpoints. -/
structure EnvironmentSettings where
  resource : String
  activeDirectoryEndpoint : String
  clientID : String
  envResourceManagerEndpoint : String
  envActiveDirectoryEndpoint : String
deriving DecidableEq, Repr

/-- `auth.MSIConfig`. -/
structure MSIConfig where
  Resource : String
  ClientID : String
deriving DecidableEq, Repr

/-- Models `auth.EnvironmentSettings.GetMSI()`: builds an `MSIConfig` from the
`Resource` and `ClientID` entries of the settings' `Values` map. -/
def EnvironmentSettings.GetMSI (s : EnvironmentSettings) : MSIConfig :=
  { Resource := s.resource, ClientID := s.clientID }

/-- Value of the go-autorest constant `auth.Resource`, passed verbatim to
`settings.ClientCredentialsAuthorizerWithResource` by the chain. -/
def authResource : String := "AZURE_AD_RESOURCE"

/-- The result of `url.Parse` on a token authority, as consumed by
`tokenToAuthorizer`: its `Path` and the serialization `u.String()` after
the assignment `u.Path = ""`. -/
structure AuthorityURL where
  path : String
  stringWithoutPath : String
deriving DecidableEq, Repr

/-- Oracles for every external collaborator consulted by the authorizer
chain (CLI profile store, environment settings, file settings, token cache,
adal/MSI SDK helpers). -/
structure ChainWorld where
  profilePath : Except GoError String
  loadProfile : String → Except GoError Profile
  getSettingsFromEnvironment : Except GoError EnvironmentSettings
  getClientCredentials : EnvironmentSettings → Except GoError ClientCred
  credAuthorizer : ClientCred → Except GoError Authz
  getSettingsFromFile : Except GoError FileSettings
  fileClientCredentialsAuthorizerWithResource :
    FileSettings → String → Except GoError Authz
  accessTokensPath : Except GoError String
  loadTokens : String → Except GoError (List Token)
  parseAuthority : String → Except GoError AuthorityURL
  newOAuthConfig : String → String → Except GoError OAuthCfg
  toADALToken : Token → Except GoError ADALToken
  newSPTFromManualToken : OAuthCfg → String → String → ADALToken → Except GoError SPT
  getMSIVMEndpoint : Except GoError String
  newSPTFromMSI : String → String → Except GoError SPT
  newSPTFromMSIWithUserAssignedID : String → String → String → Except GoError SPT
  ensureFresh : SPT → Option GoError

/-! ## Embedded source functions: token/MSI helpers -/

/-- `sptTest` (conf_azure.go lines 69-76): ensure the service-principal token
is fresh, then wrap it as a bearer authorizer. -/
def sptTest (w : ChainWorld) (spt : SPT) : Except GoError Authz :=
  match w.ensureFresh spt with
  | some e => Except.error e
  | none => Except.ok (Authz.bearer spt)

/-- `tokenToAuthorizer` (lines 78-104): parse the token's authority, build an
OAuth config from the authority URL with its path (the tenant id) cleared,
convert the CLI token to an adal token, build a service-principal token from
it and validate it via `sptTest`. -/
def tokenToAuthorizer (w : ChainWorld) (t : Token) : Except GoError Authz :=
  match w.parseAuthority t.Authority with
  | Except.error e => Except.error e
  | Except.ok u =>
    match w.newOAuthConfig u.stringWithoutPath u.path with
    | Except.error e => Except.error e
    | Except.ok oauth =>
      match w.toADALToken t with
      | Except.error e => Except.error e
      | Except.ok aToken =>
        match w.newSPTFromManualToken oauth t.ClientID t.Resource aToken with
        | Except.error e => Except.error e
        | Except.ok spt => sptTest w spt

/-- `msiToAuthorizer` (lines 106-124): discover the MSI VM endpoint, request a
service-principal token for the default or user-assigned identity, validate
via `sptTest`. -/
def msiToAuthorizer (w : ChainWorld) (mc : MSIConfig) : Except GoError Authz :=
  match w.getMSIVMEndpoint with
  | Except.error e => Except.error e
  | Except.ok msiEndpoint =>
    match (if mc.ClientID == "" then w.newSPTFromMSI msiEndpoint mc.Resource
           else w.newSPTFromMSIWithUserAssignedID msiEndpoint mc.Resource mc.ClientID) with
    | Except.error e => Except.error e
    | Except.ok spt => sptTest w spt

/-! ## Embedded source functions: default subscription -/

/-- The `for _, s := range profile.Subscriptions` loop of
`azureDefaultSubscription` (lines 198-202): first entry flagged default. -/
def findDefaultSubscription : List Subscription → Option Subscription
  | [] => none
  | s :: rest => if s.IsDefault then some s else findDefaultSubscription rest

/-- `azureDefaultSubscription` (lines 187-205). -/
def azureDefaultSubscription (w : ChainWorld) : Except GoError Subscription :=
  match w.profilePath with
  | Except.error e => Except.error e
  | Except.ok pPath =>
    match w.loadProfile pPath with
    | Except.error e => Except.error e
    | Except.ok profile =>
      match findDefaultSubscription profile.Subscriptions with
      | some s => Except.ok s
      | none => Except.error "Unable to find default azure subscription id"

/-! ## Embedded source functions: the authorizer chain -/

/-- `AzureAuthorizerConfig` (lines 61-64). The `Log *LogHandle` field is a
logging capability with no semantic effect and is not modelled. -/
structure AzureAuthorizerConfig where
  TenantId : String
deriving DecidableEq, Repr

/-- The external sources consulted by `AzureAuthorizerConfig.Authorizer`,
recorded in consultation order. -/
inductive ChainStep where
  | profile
  | envSettings
  | envClientCredentials
  | settingsFile
  | tokenCache
  | managedIdentity
deriving DecidableEq, Repr

/-- Outcome of the `for _, t := range accessTokens` loop (lines 167-176):
either an authorizer was returned from inside the loop, or the loop was
exhausted with the current value of the (shadowed) `err` variable. -/
inductive ScanOutcome where
  | found (a : Authz)
  | exhausted (e : Option GoError)
deriving DecidableEq, Repr

/-- The token scan loop (lines 167-176). The accumulator is the `err`
variable declared by `accessTokens, err := cli.LoadTokens(...)`: a failed
conversion of a matched token overwrites it and the loop continues. -/
def scanTokens (w : ChainWorld) (adEndpoint : String) :
    List Token → Option GoError → ScanOutcome
  | [], e => ScanOutcome.exhausted e
  | t :: rest, e =>
    if t.Authority == adEndpoint then
      match tokenToAuthorizer w t with
      | Except.ok a => ScanOutcome.found a
      | Except.error e2 => scanTokens w adEndpoint rest (some e2)
    else scanTokens w adEndpoint rest e

/-- Lines 127-133: the tenant id used by the chain, resolved through the
default subscription when `c.TenantId` is empty. -/
def resolvedTenant (c : AzureAuthorizerConfig) (w : ChainWorld) : Except GoError String :=
  if c.TenantId == "" then
    match azureDefaultSubscription w with
    | Except.error e => Except.error e
    | Except.ok s => Except.ok s.TenantID
  else Except.ok c.TenantId

/-- Lines 140-144: the environment-variable client-credential step. `none`
models both failure branches whose errors are swallowed. -/
def envCredStep (w : ChainWorld) (env : EnvironmentSettings) : Option Authz :=
  match w.getClientCredentials env with
  | Except.error _ => none
  | Except.ok cred =>
    match w.credAuthorizer cred with
    | Except.error _ => none
    | Except.ok a => some a

/-- Lines 146-151: the settings-file client-credential step. -/
def fileCredStep (w : ChainWorld) : Option Authz :=
  match w.getSettingsFromFile with
  | Except.error _ => none
  | Except.ok settings =>
    match w.fileClientCredentialsAuthorizerWithResource settings authResource with
    | Except.error _ => none
    | Except.ok a => some a

/-- Lines 153-158: default the `Resource` and `ActiveDirectoryEndpoint`
entries of `env.Values` from `env.Environment` when empty. -/
def defaultedEnv (env : EnvironmentSettings) : EnvironmentSettings :=
  let env := if env.resource == "" then
      { env with resource := env.envResourceManagerEndpoint }
    else env
  if env.activeDirectoryEndpoint == "" then
    { env with activeDirectoryEndpoint := env.envActiveDirectoryEndpoint }
  else env

/-- Lines 159-160: the target authority string
`strings.Trim(env.Values[auth.ActiveDirectoryEndpoint], "/") + "/" + tenantId`,
computed on the defaulted settings. -/
def adEndpointOf (env : EnvironmentSettings) (tenantId : String) : String :=
  goTrim (defaultedEnv env).activeDirectoryEndpoint "/" ++ "/" ++ tenantId

/-- Lines 135-185 of `AzureAuthorizerConfig.Authorizer`, after the tenant id
has been resolved: environment settings, the two client-credential steps, the
token-cache scan and the MSI fallback, with the consultation trace threaded
through. -/
def authorizerFromTenant (w : ChainWorld) (tenantId : String) (tr0 : List ChainStep) :
    Except GoError Authz × List ChainStep :=
  match w.getSettingsFromEnvironment with
  | Except.error e => (Except.error e, tr0 ++ [ChainStep.envSettings])
  | Except.ok env =>
    match envCredStep w env with
    | some a => (Except.ok a, tr0 ++ [ChainStep.envSettings, ChainStep.envClientCredentials])
    | none =>
      match fileCredStep w with
      | some a =>
        (Except.ok a,
         tr0 ++ [ChainStep.envSettings, ChainStep.envClientCredentials, ChainStep.settingsFile])
      | none =>
        let env2 := defaultedEnv env
        let adEndpoint := adEndpointOf env tenantId
        match w.accessTokensPath with
        | Except.error _ =>
          -- `if err == nil` (line 164) is false: the whole token-cache block
          -- is skipped and the chain falls directly to the MSI step.
          (msiToAuthorizer w env2.GetMSI,
           tr0 ++ [ChainStep.envSettings, ChainStep.envClientCredentials,
                   ChainStep.settingsFile, ChainStep.tokenCache, ChainStep.managedIdentity])
        | Except.ok path =>
          match w.loadTokens path with
          | Except.error e =>
            -- the loop is skipped and `if err != nil` (line 178) returns the error
            (Except.error e,
             tr0 ++ [ChainStep.envSettings, ChainStep.envClientCredentials,
                     ChainStep.settingsFile, ChainStep.tokenCache])
          | Except.ok tokens =>
            match scanTokens w adEndpoint tokens none with
            | ScanOutcome.found a =>
              (Except.ok a,
               tr0 ++ [ChainStep.envSettings, ChainStep.envClientCredentials,
                       ChainStep.settingsFile, ChainStep.tokenCache])
            | ScanOutcome.exhausted none =>
              (msiToAuthorizer w env2.GetMSI,
               tr0 ++ [ChainStep.envSettings, ChainStep.envClientCredentials,
                       ChainStep.settingsFile, ChainStep.tokenCache, ChainStep.managedIdentity])
            | ScanOutcome.exhausted (some e) =>
              -- the conversion error of the last matched token is still in
              -- the shadowed `err`, so line 178 returns it
              (Except.error e,
               tr0 ++ [ChainStep.envSettings, ChainStep.envClientCredentials,
                       ChainStep.settingsFile, ChainStep.tokenCache])

/-- `AzureAuthorizerConfig.Authorizer` (lines 126-185), returning the Go
result together with the consultation trace. -/
def AzureAuthorizerConfig.Authorizer (c : AzureAuthorizerConfig) (w : ChainWorld) :
    Except GoError Authz × List ChainStep :=
  match resolvedTenant c w with
  | Except.error e => (Except.error e, if c.TenantId == "" then [ChainStep.profile] else [])
  | Except.ok tenantId =>
    authorizerFromTenant w tenantId (if c.TenantId == "" then [ChainStep.profile] else [])

/-! ## Embedded source functions: control-plane client and account discovery -/

/-- The parts of `azblob.AccountsClient` set by this module: the subscription
id passed to `azblob.NewAccountsClient` and the authorizer installed on
`c.BaseClient.Authorizer`. -/
structure AccountsClient where
  subscriptionID : String
  authorizer : Option Authz
deriving DecidableEq, Repr

/-- Models `azblob.NewAccountsClient(subscriptionID)`. -/
def azblobNewAccountsClient (subscriptionID : String) : AccountsClient :=
  { subscriptionID := subscriptionID, authorizer := none }

/-- `azureAccountsClient` (lines 207-227). The `account` parameter is unused
by the source body as well. -/
def azureAccountsClient (cw : ChainWorld) (account : String) : Except GoError AccountsClient :=
  match azureDefaultSubscription cw with
  | Except.error e => Except.error e
  | Except.ok defaultSubscription =>
    let c := azblobNewAccountsClient defaultSubscription.ID
    match (AzureAuthorizerConfig.Authorizer
        { TenantId := defaultSubscription.TenantID } cw).1 with
    | Except.error e => Except.error e
    | Except.ok a => Except.ok { c with authorizer := some a }

/-- The fields of `azblob.Account` read by `azureFindAccount`. -/
structure StorageAccount where
  Name : String
  ID : String
  primaryEndpointsBlob : String
deriving DecidableEq, Repr

/-- The fields of `azblob.AccountKey` read by the key-selection code. -/
structure AccountKey where
  Permissions : String
  Value : String
deriving DecidableEq, Repr

/-- Value of the SDK constant `azblob.Full` (`storage.KeyPermission`). -/
def azblobFull : String := "FULL"

/-- The `for _, acc := range *accountsRes.Value` loop of `azureFindAccount`
(lines 235-246): first name match wins; its resource id must split (via
`strings.SplitN(id, "/", 6)`) into exactly 6 segments, of which segment 4 is
the resource group. -/
def azureFindAccountLoop (account : String) : List StorageAccount → Except GoError (String × String)
  | [] => Except.error ("Azure account not found: " ++ account)
  | acc :: rest =>
    if acc.Name == account then
      let parts := goSplitN acc.ID '/' 6
      -- source: `if len(parts) != 6 { return "", "", fmt.Errorf(...) }`
      if h : parts.length ≠ 6 then Except.error ("Malformed account id: " ++ acc.ID)
      else Except.ok (acc.primaryEndpointsBlob, parts.get ⟨4, by omega⟩)
    else azureFindAccountLoop account rest

/-- The result of `url.Parse` as consumed by `AzureBlobConfig`:
`u.Hostname()` and `u.Path`. -/
structure BlobURL where
  hostname : String
  path : String
deriving DecidableEq, Repr

/-- An ini section handle (`config.GetSection("storage")`):
`GetKey(name)` yields the key's `Value()`. -/
structure IniSection where
  getKey : String → Except GoError String

/-- An ini file handle (`ini.Load(path)`). -/
structure IniFile where
  getSection : String → Except GoError IniSection

/-- Oracles for the external collaborators of `AzureBlobConfig`: environment
variables, the home directory, `url.Parse`, the ini config file, and the two
control-plane listing calls. -/
structure BlobWorld where
  envAccount : String
  envKey : String
  envConfigDir : String
  homedirAzure : String
  parseURL : String → Except GoError BlobURL
  iniLoad : String → Except GoError IniFile
  listAccounts : AccountsClient → Except GoError (List StorageAccount)
  listKeys : AccountsClient → String → String → Except GoError (List AccountKey)

/-- `azureFindAccount` (lines 229-247). -/
def azureFindAccount (w : BlobWorld) (client : AccountsClient) (account : String) :
    Except GoError (String × String) :=
  match w.listAccounts client with
  | Except.error e => Except.error e
  | Except.ok accs => azureFindAccountLoop account accs

/-! ## Embedded source functions: AzureBlobConfig -/

/-- `AZBlobConfig` (lines 38-47). The `SasToken` capability field is never
assigned by `AzureBlobConfig` and is not modelled; `TokenRenewBuffer` is in
nanoseconds, matching `time.Duration`. -/
structure AZBlobConfig where
  Endpoint : String := ""
  AccountName : String := ""
  AccountKey : String := ""
  TokenRenewBuffer : Nat := 0
  Container : String := ""
  Prefix : String := ""
deriving DecidableEq, Repr

/-- `15 * time.Minute` in nanoseconds. -/
def fifteenMinutesNS : Nat := 15 * 60 * 1000000000

/-- `AZBlobConfig.Init` (lines 49-51). -/
def AZBlobConfig.Init (c : AZBlobConfig) : AZBlobConfig :=
  { c with TokenRenewBuffer := fifteenMinutesNS }

/-- The well-known local emulator address checked on line 268. -/
def devstoreEndpoint : String := "http://127.0.0.1:8080/devstoreaccount1/"

/-- `azure.PublicCloud.StorageEndpointSuffix` from the go-autorest SDK. -/
def publicCloudStorageEndpointSuffix : String := "core.windows.net"

/-- The control-plane interactions performed by `AzureBlobConfig`, recorded
in order. -/
inductive BlobEffect where
  | accountsClientConstruction
  | accountList
  | keyList
deriving DecidableEq, Repr

/-- The `fmt.Errorf` message of lines 303-304. -/
def missingAccountMsg (configDir : String) : GoError :=
  "Missing account: configure via AZURE_STORAGE_ACCOUNT or " ++ configDir ++ "/config"

/-- The `fmt.Errorf` message of lines 316-317 / 327-328. -/
def missingKeyMsg (configDir : String) : GoError :=
  "Missing key: configure via AZURE_STORAGE_KEY or " ++ configDir ++ "/config"

/-- Key selection (lines 332-340): the loop prefers the first key with full
permissions, but the subsequent unconditional assignment
`key = *(*keysRes.Keys)[0].Value` overwrites the loop's choice. The `for`
loop is `preferFullKey`; the source only reaches this code with a non-empty
key list (guarded by `len(*keysRes.Keys) == 0` on line 326). -/
def preferFullKey (key : String) : List AccountKey → String
  | [] => key
  | k :: rest => if k.Permissions == azblobFull then k.Value else preferFullKey key rest

/-- Lines 332-340 as a whole: scan for a full-permission key, then overwrite
with the first key's value. -/
def selectKey (key : String) (keys : List AccountKey) : String :=
  let key := preferFullKey key keys
  match keys with
  | [] => key
  | k0 :: _ => k0.Value

/-- Lines 254-265: parse the optional `container@host/path` hint out of the
wasb argument. Returns the (possibly overridden) endpoint, the container and
the prefix. -/
def parseWasbHint (w : BlobWorld) (endpoint wasb : String) : String × String × String :=
  match splitAtFirst wasb '@' with
  | none => (endpoint, "", "")
  | some (beforeAt, afterAt) =>
    let storageEndpoint := "https://" ++ afterAt
    match w.parseURL storageEndpoint with
    | Except.error _ => (endpoint, "", "")
    | Except.ok u => (storageEndpoint, beforeAt, goTrim u.path "/")

/-- Lines 281-300: fill `account`/`key` from the ini config file when either
is empty, expanding `configDir` from the home directory when unset. Returns
the updated `(account, key, configDir)`. -/
def azureBlobIni (w : BlobWorld) (account key configDir : String) : String × String × String :=
  if account == "" || key == "" then
    let configDir := if configDir == "" then w.homedirAzure else configDir
    match w.iniLoad (configDir ++ "/config") with
    | Except.error _ => (account, key, configDir)
    | Except.ok iniFile =>
      match iniFile.getSection "storage" with
      | Except.error _ => (account, key, configDir)
      | Except.ok sect =>
        let account := if account == "" then
            match sect.getKey "account" with
            | Except.error _ => account
            | Except.ok v => v
          else account
        let key := if key == "" then
            match sect.getKey "key" with
            | Except.error _ => key
            | Except.ok v => v
          else key
        (account, key, configDir)
  else (account, key, configDir)

/-- Lines 347-359: synthesize the public-cloud endpoint when still empty and
produce the final config via `config.Init()` and the field assignments. The
`err` argument is the current value of the named return `err`, which the
source never clears on this path. -/
def azureBlobFinish (config0 : AZBlobConfig) (endpoint account key : String)
    (err : Option GoError) (effs : List BlobEffect) :
    AZBlobConfig × Option GoError × List BlobEffect :=
  let endpoint := if endpoint == "" then
      "https://" ++ account ++ ".blob." ++ publicCloudStorageEndpointSuffix
    else endpoint
  ({ config0.Init with Endpoint := endpoint, AccountName := account, AccountKey := key },
   err, effs)

/-- Lines 308-345: the control-plane discovery block, entered when endpoint
or key is still missing. -/
def azureBlobDiscover (w : BlobWorld) (cw : ChainWorld) (config0 : AZBlobConfig)
    (endpoint account key configDir : String) :
    AZBlobConfig × Option GoError × List BlobEffect :=
  if endpoint == "" || key == "" then
    match azureAccountsClient cw account with
    | Except.error e => (config0, some e, [BlobEffect.accountsClientConstruction])
    | Except.ok client =>
      match azureFindAccount w client account with
      | Except.error e =>
        if key == "" then
          (config0, some (missingKeyMsg configDir),
           [BlobEffect.accountsClientConstruction, BlobEffect.accountList])
        else
          -- the named return `err` keeps the discovery error; the endpoint
          -- assigned by the failing call is "" and is synthesized below
          azureBlobFinish config0 "" account key (some e)
            [BlobEffect.accountsClientConstruction, BlobEffect.accountList]
      | Except.ok (endpoint, resourceGroup) =>
        if key == "" then
          match w.listKeys client resourceGroup account with
          | Except.error _ =>
            (config0, some (missingKeyMsg configDir),
             [BlobEffect.accountsClientConstruction, BlobEffect.accountList,
              BlobEffect.keyList])
          | Except.ok keys =>
            if keys.length == 0 then
              (config0, some (missingKeyMsg configDir),
               [BlobEffect.accountsClientConstruction, BlobEffect.accountList,
                BlobEffect.keyList])
            else
              azureBlobFinish config0 endpoint account (selectKey key keys) none
                [BlobEffect.accountsClientConstruction, BlobEffect.accountList,
                 BlobEffect.keyList]
        else
          azureBlobFinish config0 endpoint account key none
            [BlobEffect.accountsClientConstruction, BlobEffect.accountList]
  else azureBlobFinish config0 endpoint account key none []

/-- Lines 281-345 glued: ini merge, the fatal missing-account check
(lines 302-306), then discovery. -/
def azureBlobMerge (w : BlobWorld) (cw : ChainWorld) (config0 : AZBlobConfig)
    (endpoint account key configDir : String) :
    AZBlobConfig × Option GoError × List BlobEffect :=
  let ikc := azureBlobIni w account key configDir
  let account := ikc.1
  let key := ikc.2.1
  let configDir := ikc.2.2
  if account == "" then
    (config0, some (missingAccountMsg configDir), [])
  else azureBlobDiscover w cw config0 endpoint account key configDir

/-- `AzureBlobConfig` (lines 249-360), returning the Go pair `(config, err)`
together with the list of control-plane interactions performed. -/
def AzureBlobConfig (w : BlobWorld) (cw : ChainWorld) (endpoint wasb : String) :
    AZBlobConfig × Option GoError × List BlobEffect :=
  let account := w.envAccount
  let key := w.envKey
  let configDir := w.envConfigDir
  let ecp := parseWasbHint w endpoint wasb
  let endpoint := ecp.1
  let container := ecp.2.1
  let pfx := ecp.2.2
  let config0 : AZBlobConfig := { Container := container, Prefix := pfx }
  -- lines 267-279: parse the account from the endpoint hostname
  if endpoint != "" && endpoint != devstoreEndpoint then
    match w.parseURL endpoint with
    | Except.error e => (config0, some e, [])
    | Except.ok u =>
      let account := match splitAtFirst u.hostname '.' with
        | some (beforeDot, _) => beforeDot
        | none => account
      azureBlobMerge w cw config0 endpoint account key configDir
  else azureBlobMerge w cw config0 endpoint account key configDir

/-! ## Decidability of result equality -/

instance {ε α : Type} [DecidableEq ε] [DecidableEq α] : DecidableEq (Except ε α) :=
  fun x y =>
    match x, y with
    | Except.ok a, Except.ok b =>
      if h : a = b then isTrue (by rw [h])
      else isFalse (by intro hc; injection hc; contradiction)
    | Except.error a, Except.error b =>
      if h : a = b then isTrue (by rw [h])
      else isFalse (by intro hc; injection hc; contradiction)
    | Except.ok _, Except.error _ => isFalse (by intro hc; exact Except.noConfusion hc)
    | Except.error _, Except.ok _ => isFalse (by intro hc; exact Except.noConfusion hc)

/-! ## Concrete sample worlds used to evaluate the embedding -/

/-- A chain world in which every external collaborator fails. -/
def chainWErr : ChainWorld where
  profilePath := Except.error "no profile"
  loadProfile := fun _ => Except.error "no profile"
  getSettingsFromEnvironment := Except.error "no env"
  getClientCredentials := fun _ => Except.error "no cred"
  credAuthorizer := fun _ => Except.error "no cred"
  getSettingsFromFile := Except.error "no file"
  fileClientCredentialsAuthorizerWithResource := fun _ _ => Except.error "no file"
  accessTokensPath := Except.error "no tokens path"
  loadTokens := fun _ => Except.error "no tokens"
  parseAuthority := fun _ => Except.error "bad authority"
  newOAuthConfig := fun _ _ => Except.error "no oauth"
  toADALToken := fun _ => Except.error "no adal"
  newSPTFromManualToken := fun _ _ _ _ => Except.error "no spt"
  getMSIVMEndpoint := Except.error "no msi"
  newSPTFromMSI := fun _ _ => Except.error "no msi"
  newSPTFromMSIWithUserAssignedID := fun _ _ _ => Except.error "no msi"
  ensureFresh := fun _ => some "stale"

/-- Environment settings with both `Values` entries already populated. -/
def envA : EnvironmentSettings where
  resource := "res"
  activeDirectoryEndpoint := "https://login/"
  clientID := ""
  envResourceManagerEndpoint := "rm"
  envActiveDirectoryEndpoint := "ad"

/-- Chain world in which the environment client-credential step succeeds. -/
def chainWEnvCred : ChainWorld :=
  { chainWErr with
    getSettingsFromEnvironment := Except.ok envA
    getClientCredentials := fun _ => Except.ok "cred"
    credAuthorizer := fun c =>
      if c == "cred" then Except.ok (Authz.sdk "env-authorizer") else Except.error "wrong" }

/-- Chain world in which the only cached token matches the target authority
but fails conversion, while the MSI fallback would succeed. -/
def chainWConvFail : ChainWorld :=
  { chainWErr with
    getSettingsFromEnvironment := Except.ok envA
    accessTokensPath := Except.ok "p"
    loadTokens := fun path =>
      if path == "p" then
        Except.ok [{ Authority := "https://login/t", Resource := "r", ClientID := "cid" }]
      else Except.error "wrong path"
    getMSIVMEndpoint := Except.ok "msi-endpoint"
    newSPTFromMSI := fun _ _ => Except.ok "msi-spt"
    ensureFresh := fun _ => none
    parseAuthority := fun _ => Except.error "conv failed" }

/-- Chain world in which the token cache loads but no token matches, and the
MSI fallback succeeds. -/
def chainWScan : ChainWorld :=
  { chainWConvFail with
    loadTokens := fun path =>
      if path == "p" then
        Except.ok [{ Authority := "https://other/t", Resource := "r", ClientID := "cid" }]
      else Except.error "wrong path" }

/-- Chain world in which `cli.AccessTokensPath()` fails and the MSI fallback
succeeds. -/
def chainWPathErr : ChainWorld :=
  { chainWErr with
    getSettingsFromEnvironment := Except.ok envA
    accessTokensPath := Except.error "no token path"
    getMSIVMEndpoint := Except.ok "msi-endpoint"
    newSPTFromMSI := fun _ _ => Except.ok "msi-spt"
    ensureFresh := fun _ => none }

/-- Chain world in which the token-cache file fails to load. -/
def chainWLoadErr : ChainWorld :=
  { chainWErr with
    getSettingsFromEnvironment := Except.ok envA
    accessTokensPath := Except.ok "p"
    loadTokens := fun _ => Except.error "cache corrupt" }

/-- Chain world with a CLI profile whose second subscription is the default. -/
def chainWProfile : ChainWorld :=
  { chainWErr with
    profilePath := Except.ok "pp"
    loadProfile := fun p =>
      if p == "pp" then
        Except.ok { Subscriptions :=
          [{ ID := "s1", TenantID := "t1", IsDefault := false },
           { ID := "s2", TenantID := "t2", IsDefault := true }] }
      else Except.error "wrong path" }

/-- Chain world in which the control-plane client can be built: a default
subscription exists and the environment client-credential step succeeds. -/
def cwOk : ChainWorld :=
  { chainWErr with
    profilePath := Except.ok "pp"
    loadProfile := fun _ =>
      Except.ok { Subscriptions := [{ ID := "sub", TenantID := "ten", IsDefault := true }] }
    getSettingsFromEnvironment := Except.ok envA
    getClientCredentials := fun _ => Except.ok "cred"
    credAuthorizer := fun _ => Except.ok (Authz.sdk "cp-auth") }

/-- Blob world with explicit env account/key and a parser for the explicit
dotted endpoint. -/
def blobW6 : BlobWorld where
  envAccount := "foo"
  envKey := "bar"
  envConfigDir := ""
  homedirAzure := "/home/user/.azure"
  parseURL := fun s =>
    if s == "https://baz.blob.core.windows.net/" then
      Except.ok { hostname := "baz.blob.core.windows.net", path := "/" }
    else Except.error "parse error"
  iniLoad := fun _ => Except.error "no ini"
  listAccounts := fun _ => Except.error "unused"
  listKeys := fun _ _ _ => Except.error "unused"

/-- Blob world for the `container@host/path` scenario. -/
def blobW7 : BlobWorld where
  envAccount := "acc"
  envKey := "k"
  envConfigDir := ""
  homedirAzure := "/home/user/.azure"
  parseURL := fun s =>
    if s == "https://host/path" then Except.ok { hostname := "host", path := "/path" }
    else Except.error "parse error"
  iniLoad := fun _ => Except.error "no ini"
  listAccounts := fun _ => Except.error "unused"
  listKeys := fun _ _ _ => Except.error "unused"

/-- Blob world whose control-plane listing returns no accounts. -/
def blobW9 : BlobWorld where
  envAccount := "acc"
  envKey := "k"
  envConfigDir := ""
  homedirAzure := "/home/user/.azure"
  parseURL := fun _ => Except.error "unused"
  iniLoad := fun _ => Except.error "unused"
  listAccounts := fun _ => Except.ok []
  listKeys := fun _ _ _ => Except.error "unused"

/-- Blob world with no environment configuration and no config file. -/
def blobW10 : BlobWorld where
  envAccount := ""
  envKey := ""
  envConfigDir := ""
  homedirAzure := "/home/user/.azure"
  parseURL := fun s =>
    if s == "https://host/path" then Except.ok { hostname := "host", path := "/path" }
    else Except.error "parse error"
  iniLoad := fun _ => Except.error "no config file"
  listAccounts := fun _ => Except.error "unused"
  listKeys := fun _ _ _ => Except.error "unused"

/-- Sample storage accounts and client for account discovery. -/
def accX8 : StorageAccount where
  Name := "other"
  ID := "whatever"
  primaryEndpointsBlob := "https://other.blob/"

/-- The matching account, with a well-formed 6-segment resource id. -/
def accM8 : StorageAccount where
  Name := "acct"
  ID := "/subscriptions/s/resourceGroups/rg/p"
  primaryEndpointsBlob := "https://acct.blob/"

/-- A control-plane client handle for the discovery scenario. -/
def client8 : AccountsClient where
  subscriptionID := "sub"
  authorizer := none

/-- Blob world whose account listing returns `accX8` then `accM8`. -/
def blobW8 : BlobWorld :=
  { blobW9 with listAccounts := fun _ => Except.ok [accX8, accM8] }

/-! ## Helper lemmas about the embedded loops -/

theorem findDefaultSubscription_skip (pre rest : List Subscription)
    (hpre : ∀ x ∈ pre, x.IsDefault = false) :
    findDefaultSubscription (pre ++ rest) = findDefaultSubscription rest := by
  induction pre with
  | nil => rfl
  | cons x pre ih =>
    have hx : x.IsDefault = false := hpre x (List.mem_cons_self x pre)
    simp only [List.cons_append, findDefaultSubscription, hx]
    exact ih (fun y hy => hpre y (List.mem_cons_of_mem x hy))

theorem findDefaultSubscription_isDefault (l : List Subscription) (s : Subscription)
    (h : findDefaultSubscription l = some s) : s.IsDefault = true := by
  induction l with
  | nil => exact absurd h (by simp [findDefaultSubscription])
  | cons x l ih =>
    by_cases hx : x.IsDefault
    · simp only [findDefaultSubscription, hx, if_true, Option.some.injEq] at h
      rw [← h]; exact hx
    · simp only [findDefaultSubscription, hx, if_false] at h
      exact ih h

theorem azureFindAccountLoop_skip (account : String) (pre rest : List StorageAccount)
    (hpre : ∀ a ∈ pre, a.Name ≠ account) :
    azureFindAccountLoop account (pre ++ rest) = azureFindAccountLoop account rest := by
  induction pre with
  | nil => rfl
  | cons a pre ih =>
    have ha : (a.Name == account) = false := by
      simpa using hpre a (List.mem_cons_self a pre)
    simp only [List.cons_append, azureFindAccountLoop, ha, Bool.false_eq_true, if_false]
    exact ih (fun x hx => hpre x (List.mem_cons_of_mem a hx))

theorem scanTokens_no_match (w : ChainWorld) (adEndpoint : String)
    (tokens : List Token) (e0 : Option GoError)
    (h : ∀ t ∈ tokens, t.Authority ≠ adEndpoint) :
    scanTokens w adEndpoint tokens e0 = ScanOutcome.exhausted e0 := by
  induction tokens with
  | nil => rfl
  | cons t rest ih =>
    have ht : (t.Authority == adEndpoint) = false := by
      simpa using h t (List.mem_cons_self t rest)
    simp only [scanTokens, ht, Bool.false_eq_true, if_false]
    exact ih (fun x hx => h x (List.mem_cons_of_mem t hx))

/-! ## Claim C1 -/

/-- Claim C1: in the key-selection code of `AzureBlobConfig`, whenever the
returned key list is non-empty, the key actually selected is the value of the
first key in the list, regardless of permission levels: the full-permission
scan is followed by the unconditional assignment `key = keys[0].Value` which
overwrites whatever the scan chose. -/
theorem selectKey_always_first_key (key0 : String) (keys : List AccountKey)
    (h : keys ≠ []) :
    selectKey key0 keys = (keys.head h).Value := by
  cases keys with
  | nil => exact absurd rfl h
  | cons k0 rest => rfl

/-- Witness for `selectKey_always_first_key` at the spec's own scenario
`[{perm: read, value: "B"}, {perm: full, value: "A"}]`: the result is `"B"`,
the first key's value, even though a full-permission key exists later. -/
theorem selectKey_always_first_key_witness :
    ([({ Permissions := "READ", Value := "B" } : AccountKey),
      { Permissions := "FULL", Value := "A" }] ≠ []) ∧
    selectKey "" [({ Permissions := "READ", Value := "B" } : AccountKey),
      { Permissions := "FULL", Value := "A" }] = "B" :=
  ⟨by decide, by
    rw [selectKey_always_first_key ""
      [{ Permissions := "READ", Value := "B" }, { Permissions := "FULL", Value := "A" }]
      (by decide)]
    rfl⟩

/-! ## Claim C5 -/

/-- Claim C5: `azureDefaultSubscription` returns the first subscription in
the CLI profile flagged default; when no subscription is flagged default
(including the empty list) it returns the fixed error and never returns any
entry, and any returned subscription has `IsDefault = true`. -/
theorem azureDefaultSubscription_spec
    (w : ChainWorld) (p : String) (profile : Profile)
    (hp : w.profilePath = Except.ok p) (hl : w.loadProfile p = Except.ok profile) :
    ((∀ s ∈ profile.Subscriptions, s.IsDefault = false) →
        azureDefaultSubscription w
          = Except.error "Unable to find default azure subscription id") ∧
    (∀ pre s post, profile.Subscriptions = pre ++ s :: post →
        (∀ x ∈ pre, x.IsDefault = false) → s.IsDefault = true →
        azureDefaultSubscription w = Except.ok s) ∧
    (∀ s, azureDefaultSubscription w = Except.ok s → s.IsDefault = true) := by
  refine ⟨?_, ?_, ?_⟩
  · intro hnone
    have hfind : findDefaultSubscription profile.Subscriptions = none := by
      have := findDefaultSubscription_skip profile.Subscriptions [] hnone
      simpa [findDefaultSubscription] using this
    unfold azureDefaultSubscription
    simp only [hp, hl, hfind]
  · intro pre s post hsplit hpre hs
    have hfind : findDefaultSubscription profile.Subscriptions = some s := by
      rw [hsplit, findDefaultSubscription_skip pre (s :: post) hpre]
      simp [findDefaultSubscription, hs]
    unfold azureDefaultSubscription
    simp only [hp, hl, hfind]
  · intro s hres
    unfold azureDefaultSubscription at hres
    simp only [hp, hl] at hres
    cases hfind : findDefaultSubscription profile.Subscriptions with
    | none => rw [hfind] at hres; exact absurd hres (by simp)
    | some s2 =>
      rw [hfind] at hres
      have : s2 = s := by injection hres
      rw [← this]
      exact findDefaultSubscription_isDefault _ _ hfind

/-- Witness for `azureDefaultSubscription_spec`: on a profile whose second
entry is the default, the resolver returns the second entry. -/
theorem azureDefaultSubscription_spec_witness :
    azureDefaultSubscription chainWProfile
      = Except.ok { ID := "s2", TenantID := "t2", IsDefault := true } := by
  have h := azureDefaultSubscription_spec chainWProfile "pp"
    { Subscriptions := [{ ID := "s1", TenantID := "t1", IsDefault := false },
                        { ID := "s2", TenantID := "t2", IsDefault := true }] }
    rfl rfl
  exact h.2.1 [{ ID := "s1", TenantID := "t1", IsDefault := false }]
    { ID := "s2", TenantID := "t2", IsDefault := true } [] rfl (by decide) rfl

/-! ## Claim C8 -/

/-- Claim C8: `azureFindAccount` scans the listed accounts in order for a
name match; on the first match it splits the resource id with
`strings.SplitN(id, "/", 6)` and returns the `Malformed account id` error
(as an error value, never a panic: the embedding is a total function) when
the split does not have exactly 6 segments, otherwise the blob primary
endpoint together with segment index 4 as the resource group; if no account
matches, it returns the `account not found` error. -/
theorem azureFindAccount_spec
    (w : BlobWorld) (client : AccountsClient) (account : String)
    (accs : List StorageAccount)
    (hl : w.listAccounts client = Except.ok accs) :
    ((∀ a ∈ accs, a.Name ≠ account) →
        azureFindAccount w client account
          = Except.error ("Azure account not found: " ++ account)) ∧
    (∀ pre acc post, accs = pre ++ acc :: post →
        (∀ a ∈ pre, a.Name ≠ account) → acc.Name = account →
        ((goSplitN acc.ID '/' 6).length ≠ 6 →
            azureFindAccount w client account
              = Except.error ("Malformed account id: " ++ acc.ID)) ∧
        (∀ h6 : (goSplitN acc.ID '/' 6).length = 6,
            azureFindAccount w client account
              = Except.ok (acc.primaryEndpointsBlob,
                  (goSplitN acc.ID '/' 6).get ⟨4, by omega⟩))) := by
  constructor
  · intro hnone
    unfold azureFindAccount
    simp only [hl]
    have := azureFindAccountLoop_skip account accs [] hnone
    simpa [azureFindAccountLoop] using this
  · intro pre acc post hsplit hpre hacc
    have hloop : azureFindAccount w client account
        = azureFindAccountLoop account (acc :: post) := by
      unfold azureFindAccount
      simp only [hl]
      rw [hsplit, azureFindAccountLoop_skip account pre (acc :: post) hpre]
    have hbeq : (acc.Name == account) = true := by simpa using hacc
    constructor
    · intro hne
      rw [hloop]
      simp only [azureFindAccountLoop, hbeq, if_true]
      rw [dif_pos hne]
    · intro h6
      rw [hloop]
      simp only [azureFindAccountLoop, hbeq, if_true]
      rw [dif_neg (by omega)]

/-- Witness for `azureFindAccount_spec`: on a listing containing a
non-matching account followed by the matching one with a 6-segment id, the
result is the blob endpoint and the resource group `"rg"` (segment 4). -/
theorem azureFindAccount_spec_witness :
    azureFindAccount blobW8 client8 "acct" = Except.ok ("https://acct.blob/", "rg") := by
  have h := azureFindAccount_spec blobW8 client8 "acct" [accX8, accM8] rfl
  have h2 := (h.2 [accX8] accM8 [] rfl (by decide) rfl).2 (by decide)
  exact h2.trans (by decide)

/-! ## Claim C2 -/

/-- Claim C2: the authorizer chain consults its sources in the fixed order
(profile for tenant resolution, environment settings, environment client
credentials, settings file, token cache, managed identity), and whenever the
environment-variable client-credential step succeeds (both
`env.GetClientCredentials()` and `cred.Authorizer()` return without error),
its authorizer is the chain's result and the settings file, the token cache
and the managed-identity endpoint are never consulted. -/
theorem authorizer_env_cred_short_circuit
    (c : AzureAuthorizerConfig) (w : ChainWorld) (tenantId : String)
    (env : EnvironmentSettings) (cred : ClientCred) (a : Authz)
    (hres : resolvedTenant c w = Except.ok tenantId)
    (henv : w.getSettingsFromEnvironment = Except.ok env)
    (hcc : w.getClientCredentials env = Except.ok cred)
    (hca : w.credAuthorizer cred = Except.ok a) :
    (c.Authorizer w).1 = Except.ok a ∧
    (c.Authorizer w).2
      = (if c.TenantId == "" then [ChainStep.profile] else [])
        ++ [ChainStep.envSettings, ChainStep.envClientCredentials] ∧
    ChainStep.settingsFile ∉ (c.Authorizer w).2 ∧
    ChainStep.tokenCache ∉ (c.Authorizer w).2 ∧
    ChainStep.managedIdentity ∉ (c.Authorizer w).2 := by
  have hstep : envCredStep w env = some a := by
    unfold envCredStep
    simp only [hcc, hca]
  have hmain : c.Authorizer w
      = (Except.ok a,
         (if c.TenantId == "" then [ChainStep.profile] else [])
           ++ [ChainStep.envSettings, ChainStep.envClientCredentials]) := by
    unfold AzureAuthorizerConfig.Authorizer authorizerFromTenant
    simp only [hres, henv, hstep]
  refine ⟨by rw [hmain], by rw [hmain], ?_, ?_, ?_⟩ <;>
    rw [hmain] <;> by_cases h : c.TenantId == "" <;> simp [h]

/-- Witness for `authorizer_env_cred_short_circuit` on a concrete world
where the environment client-credential step succeeds. -/
theorem authorizer_env_cred_short_circuit_witness :
    (AzureAuthorizerConfig.Authorizer ⟨"t"⟩ chainWEnvCred).1
      = Except.ok (Authz.sdk "env-authorizer") ∧
    ChainStep.managedIdentity ∉ (AzureAuthorizerConfig.Authorizer ⟨"t"⟩ chainWEnvCred).2 := by
  have h := authorizer_env_cred_short_circuit ⟨"t"⟩ chainWEnvCred "t" envA "cred"
    (Authz.sdk "env-authorizer") rfl rfl rfl (by decide)
  exact ⟨h.1, h.2.2.2.2⟩

/-! ## Claim C3 -/

/-- Counterexample to claim C3: in `chainWConvFail` the single cached token
matches the target authority but fails conversion; the scan therefore
completes without any matching token converting successfully, yet the chain
does NOT proceed to the managed-identity fallback (which would have
succeeded with `Authz.bearer "msi-spt"`): the lingering conversion error in
the shadowed `err` variable is returned as the chain's error. -/
theorem authorizer_conversion_error_is_final :
    (AzureAuthorizerConfig.Authorizer ⟨"t"⟩ chainWConvFail).1
      = Except.error "conv failed" ∧
    ChainStep.managedIdentity ∉ (AzureAuthorizerConfig.Authorizer ⟨"t"⟩ chainWConvFail).2 ∧
    msiToAuthorizer chainWConvFail (defaultedEnv envA).GetMSI
      = Except.ok (Authz.bearer "msi-spt") :=
  ⟨by decide, by decide, by decide⟩

/-- Claim C3 as amended: after the cached-token scan, the chain proceeds to
the managed-identity fallback (whose result is the final outcome) exactly
when the scan ends with no pending conversion error — in particular when no
cached token matched the authority at all; when one or more matched
candidates failed conversion and none succeeded, the last conversion error
is returned as the chain's error instead. -/
theorem authorizer_cache_scan_fallthrough
    (c : AzureAuthorizerConfig) (w : ChainWorld) (tenantId : String)
    (env : EnvironmentSettings) (path : String) (tokens : List Token)
    (hres : resolvedTenant c w = Except.ok tenantId)
    (henv : w.getSettingsFromEnvironment = Except.ok env)
    (hec : envCredStep w env = none)
    (hfc : fileCredStep w = none)
    (hpath : w.accessTokensPath = Except.ok path)
    (hload : w.loadTokens path = Except.ok tokens) :
    (scanTokens w (adEndpointOf env tenantId) tokens none = ScanOutcome.exhausted none →
        (c.Authorizer w).1 = msiToAuthorizer w (defaultedEnv env).GetMSI) ∧
    (∀ e, scanTokens w (adEndpointOf env tenantId) tokens none
          = ScanOutcome.exhausted (some e) →
        (c.Authorizer w).1 = Except.error e) ∧
    ((∀ t ∈ tokens, t.Authority ≠ adEndpointOf env tenantId) →
        (c.Authorizer w).1 = msiToAuthorizer w (defaultedEnv env).GetMSI) := by
  refine ⟨?_, ?_, ?_⟩
  · intro hscan
    unfold AzureAuthorizerConfig.Authorizer authorizerFromTenant
    simp only [hres, henv, hec, hfc, hpath, hload, hscan]
  · intro e hscan
    unfold AzureAuthorizerConfig.Authorizer authorizerFromTenant
    simp only [hres, henv, hec, hfc, hpath, hload, hscan]
  · intro hnm
    have hscan := scanTokens_no_match w (adEndpointOf env tenantId) tokens none hnm
    unfold AzureAuthorizerConfig.Authorizer authorizerFromTenant
    simp only [hres, henv, hec, hfc, hpath, hload, hscan]

/-- Witness for `authorizer_cache_scan_fallthrough` on a concrete world
where the cache loads but no token matches: the MSI result is final. -/
theorem authorizer_cache_scan_fallthrough_witness :
    (AzureAuthorizerConfig.Authorizer ⟨"t"⟩ chainWScan).1
      = msiToAuthorizer chainWScan (defaultedEnv envA).GetMSI ∧
    msiToAuthorizer chainWScan (defaultedEnv envA).GetMSI
      = Except.ok (Authz.bearer "msi-spt") := by
  have h := authorizer_cache_scan_fallthrough ⟨"t"⟩ chainWScan "t" envA "p"
    [{ Authority := "https://other/t", Resource := "r", ClientID := "cid" }]
    rfl rfl rfl rfl rfl (by decide)
  exact ⟨h.1 (by decide), by decide⟩

/-! ## Claim C4 -/

/-- Counterexample to claim C4: an error obtaining the token-cache path
(`cli.AccessTokensPath()`) is NOT fatal to the chain — the token-cache block
is skipped entirely and the managed-identity fallback runs and determines
the result. -/
theorem authorizer_tokens_path_error_not_fatal :
    chainWPathErr.accessTokensPath = Except.error "no token path" ∧
    (AzureAuthorizerConfig.Authorizer ⟨"t"⟩ chainWPathErr).1
      = Except.ok (Authz.bearer "msi-spt") ∧
    (AzureAuthorizerConfig.Authorizer ⟨"t"⟩ chainWPathErr).1
      ≠ Except.error "no token path" ∧
    ChainStep.managedIdentity ∈ (AzureAuthorizerConfig.Authorizer ⟨"t"⟩ chainWPathErr).2 :=
  ⟨by decide, by decide, by decide, by decide⟩

/-- Claim C4 as amended: an error loading the token-cache file is fatal to
the chain (propagated, managed identity not attempted); an error obtaining
the token-cache path is swallowed and the chain falls through to the
managed-identity step; a failure converting one specific matched token
skips that candidate and scanning continues with the remaining cached
tokens (recording the conversion error in the scan state). -/
theorem authorizer_cache_error_semantics
    (c : AzureAuthorizerConfig) (w : ChainWorld) (tenantId : String)
    (env : EnvironmentSettings)
    (hres : resolvedTenant c w = Except.ok tenantId)
    (henv : w.getSettingsFromEnvironment = Except.ok env)
    (hec : envCredStep w env = none)
    (hfc : fileCredStep w = none) :
    (∀ e, w.accessTokensPath = Except.error e →
        (c.Authorizer w).1 = msiToAuthorizer w (defaultedEnv env).GetMSI) ∧
    (∀ path e, w.accessTokensPath = Except.ok path →
        w.loadTokens path = Except.error e →
        (c.Authorizer w).1 = Except.error e) ∧
    (∀ t rest e0 e2, t.Authority = adEndpointOf env tenantId →
        tokenToAuthorizer w t = Except.error e2 →
        scanTokens w (adEndpointOf env tenantId) (t :: rest) e0
          = scanTokens w (adEndpointOf env tenantId) rest (some e2)) := by
  refine ⟨?_, ?_, ?_⟩
  · intro e hpath
    unfold AzureAuthorizerConfig.Authorizer authorizerFromTenant
    simp only [hres, henv, hec, hfc, hpath]
  · intro path e hpath hload
    unfold AzureAuthorizerConfig.Authorizer authorizerFromTenant
    simp only [hres, henv, hec, hfc, hpath, hload]
  · intro t rest e0 e2 hmatch hconv
    have hbeq : (t.Authority == adEndpointOf env tenantId) = true := by simpa using hmatch
    simp only [scanTokens, hbeq, if_true, hconv]

/-- Witness for `authorizer_cache_error_semantics` on a concrete world where
the token-cache file fails to load: the load error is the chain's error. -/
theorem authorizer_cache_error_semantics_witness :
    (AzureAuthorizerConfig.Authorizer ⟨"t"⟩ chainWLoadErr).1
      = Except.error "cache corrupt" := by
  have h := authorizer_cache_error_semantics ⟨"t"⟩ chainWLoadErr "t" envA rfl rfl rfl rfl
  exact h.2.1 "p" "cache corrupt" rfl rfl

/-! ## Helper lemmas about AzureBlobConfig -/

theorem azureBlobFinish_keeps_hint (config0 : AZBlobConfig) (endpoint account key : String)
    (err : Option GoError) (effs : List BlobEffect) :
    (azureBlobFinish config0 endpoint account key err effs).1.Container = config0.Container ∧
    (azureBlobFinish config0 endpoint account key err effs).1.Prefix = config0.Prefix :=
  ⟨rfl, rfl⟩

theorem azureBlobDiscover_keeps_hint (w : BlobWorld) (cw : ChainWorld)
    (config0 : AZBlobConfig) (endpoint account key configDir : String) :
    (azureBlobDiscover w cw config0 endpoint account key configDir).1.Container
        = config0.Container ∧
    (azureBlobDiscover w cw config0 endpoint account key configDir).1.Prefix
        = config0.Prefix := by
  unfold azureBlobDiscover
  repeat' split
  all_goals exact ⟨rfl, rfl⟩

theorem azureBlobMerge_keeps_hint (w : BlobWorld) (cw : ChainWorld)
    (config0 : AZBlobConfig) (endpoint account key configDir : String) :
    (azureBlobMerge w cw config0 endpoint account key configDir).1.Container
        = config0.Container ∧
    (azureBlobMerge w cw config0 endpoint account key configDir).1.Prefix
        = config0.Prefix := by
  simp only [azureBlobMerge]
  split
  · exact ⟨rfl, rfl⟩
  · apply azureBlobDiscover_keeps_hint

/-- The fast path of the merge stage: with a known account, key and endpoint,
no file or control-plane lookup happens and the final config is assembled
directly. -/
theorem azureBlobMerge_no_lookup (w : BlobWorld) (cw : ChainWorld)
    (config0 : AZBlobConfig) (endpoint account key configDir : String)
    (ha : account ≠ "") (hk : key ≠ "") (he : endpoint ≠ "") :
    azureBlobMerge w cw config0 endpoint account key configDir
      = ({ config0.Init with
            Endpoint := endpoint
            AccountName := account
            AccountKey := key }, none, []) := by
  have hga : (account == "") = false := by simpa using ha
  have hgk : (key == "") = false := by simpa using hk
  have hge : (endpoint == "") = false := by simpa using he
  unfold azureBlobMerge azureBlobIni azureBlobDiscover azureBlobFinish
  simp only [hga, hgk, hge, Bool.or_self, Bool.false_eq_true, if_false,
    Bool.or_false, Bool.false_or]

/-! ## Claim C6 -/

/-- Counterexample to claim C6: with `AZURE_STORAGE_ACCOUNT = "foo"` and
`AZURE_STORAGE_KEY = "bar"` both set, (a) a dotted endpoint hostname
overwrites the account name (the result's `AccountName` is `"baz"`, not the
environment value), and (b) with an empty endpoint the control-plane
accounts-client construction IS performed even though both variables are
set. -/
theorem azureBlobConfig_env_not_respected :
    blobW6.envAccount = "foo" ∧ blobW6.envKey = "bar" ∧
    (AzureBlobConfig blobW6 chainWErr "https://baz.blob.core.windows.net/" "").1.AccountName
      = "baz" ∧
    ("baz" : String) ≠ "foo" ∧
    (AzureBlobConfig blobW6 chainWErr "" "").2.2
      = [BlobEffect.accountsClientConstruction] :=
  ⟨rfl, rfl, by decide, by decide, by decide⟩

/-- Claim C6 as amended: when both environment variables are set, the
endpoint (after the wasb hint, here absent) is non-empty, not the emulator
address, and parses, the key is returned unchanged and no control-plane call
is made; the account name equals the environment value unless the endpoint
hostname contains a dot, in which case it is the hostname's first
dot-delimited label. -/
theorem azureBlobConfig_env_with_endpoint
    (w : BlobWorld) (cw : ChainWorld) (endpoint wasb : String) (u : BlobURL)
    (hkey : w.envKey ≠ "")
    (hwasb : splitAtFirst wasb '@' = none)
    (hep : endpoint ≠ "")
    (hdev : endpoint ≠ devstoreEndpoint)
    (hu : w.parseURL endpoint = Except.ok u)
    (hacct : (match splitAtFirst u.hostname '.' with
              | some (beforeDot, _) => beforeDot
              | none => w.envAccount) ≠ "") :
    (AzureBlobConfig w cw endpoint wasb).2.2 = [] ∧
    (AzureBlobConfig w cw endpoint wasb).2.1 = none ∧
    (AzureBlobConfig w cw endpoint wasb).1.AccountKey = w.envKey ∧
    (AzureBlobConfig w cw endpoint wasb).1.AccountName
      = (match splitAtFirst u.hostname '.' with
         | some (beforeDot, _) => beforeDot
         | none => w.envAccount) ∧
    (AzureBlobConfig w cw endpoint wasb).1.Endpoint = endpoint := by
  have hw : parseWasbHint w endpoint wasb = (endpoint, "", "") := by
    unfold parseWasbHint
    simp only [hwasb]
  have hcond : (endpoint != "" && endpoint != devstoreEndpoint) = true := by
    simp only [Bool.and_eq_true, bne_iff_ne]
    exact ⟨hep, hdev⟩
  have hmain : AzureBlobConfig w cw endpoint wasb
      = ({ Endpoint := endpoint
           AccountName := (match splitAtFirst u.hostname '.' with
                           | some (beforeDot, _) => beforeDot
                           | none => w.envAccount)
           AccountKey := w.envKey
           TokenRenewBuffer := fifteenMinutesNS
           Container := ""
           Prefix := "" }, none, []) := by
    unfold AzureBlobConfig
    simp only [hw, hcond, if_true, hu]
    cases hsp : splitAtFirst u.hostname '.' with
    | none =>
      simp only [hsp] at hacct ⊢
      rw [azureBlobMerge_no_lookup w cw _ endpoint w.envAccount w.envKey w.envConfigDir
        hacct hkey hep]
      rfl
    | some p =>
      obtain ⟨beforeDot, rest⟩ := p
      simp only [hsp] at hacct ⊢
      rw [azureBlobMerge_no_lookup w cw _ endpoint beforeDot w.envKey w.envConfigDir
        hacct hkey hep]
      rfl
  refine ⟨?_, ?_, ?_, ?_, ?_⟩ <;> rw [hmain]

/-- Witness for `azureBlobConfig_env_with_endpoint` at the concrete world
`blobW6` with a dotted endpoint hostname. -/
theorem azureBlobConfig_env_with_endpoint_witness :
    (AzureBlobConfig blobW6 chainWErr "https://baz.blob.core.windows.net/" "").2.2 = [] ∧
    (AzureBlobConfig blobW6 chainWErr "https://baz.blob.core.windows.net/" "").1.AccountKey
      = blobW6.envKey := by
  have h := azureBlobConfig_env_with_endpoint blobW6 chainWErr
    "https://baz.blob.core.windows.net/" "" { hostname := "baz.blob.core.windows.net", path := "/" }
    (by decide) (by decide) (by decide) (by decide) (by decide) (by decide)
  exact ⟨h.1, h.2.2.1⟩

/-! ## Claim C7 -/

/-- Counterexample to claim C7: for `wasb = "cont@host/path"`, container and
prefix are parsed as claimed, but the endpoint that replaces the explicit
one is `"https://host/path"` — `"https://"` plus the whole text after `'@'`,
host AND path — not `"https://"` plus the URL's host (`"host"`). -/
theorem azureBlobConfig_wasb_endpoint_cx :
    (AzureBlobConfig blobW7 chainWErr "https://explicit" "cont@host/path").1.Endpoint
      = "https://host/path" ∧
    (AzureBlobConfig blobW7 chainWErr "https://explicit" "cont@host/path").1.Container
      = "cont" ∧
    (AzureBlobConfig blobW7 chainWErr "https://explicit" "cont@host/path").1.Prefix
      = "path" ∧
    blobW7.parseURL "https://host/path"
      = Except.ok { hostname := "host", path := "/path" } ∧
    ("https://host/path" : String) ≠ "https://" ++ "host" :=
  ⟨by decide, by decide, by decide, by decide, by decide⟩

/-- Claim C7 as amended: when the wasb hint contains `'@'` and
`"https://" ++ <text after '@'>` parses, the container is the substring
before `'@'`, the prefix is the URL's path trimmed of surrounding slashes,
and the endpoint that overrides the explicit one is `"https://"` plus the
entire text after `'@'` (host and path); the parsed container and prefix
reach the returned config on every path of `AzureBlobConfig`. -/
theorem azureBlobConfig_wasb_hint
    (w : BlobWorld) (cw : ChainWorld) (endpoint wasb beforeAt afterAt : String) (u : BlobURL)
    (hsplit : splitAtFirst wasb '@' = some (beforeAt, afterAt))
    (hu : w.parseURL ("https://" ++ afterAt) = Except.ok u) :
    parseWasbHint w endpoint wasb
      = ("https://" ++ afterAt, beforeAt, goTrim u.path "/") ∧
    (AzureBlobConfig w cw endpoint wasb).1.Container = beforeAt ∧
    (AzureBlobConfig w cw endpoint wasb).1.Prefix = goTrim u.path "/" := by
  have hw : parseWasbHint w endpoint wasb
      = ("https://" ++ afterAt, beforeAt, goTrim u.path "/") := by
    unfold parseWasbHint
    simp only [hsplit, hu]
  refine ⟨hw, ?_, ?_⟩
  · unfold AzureBlobConfig
    simp only [hw]
    split
    · split
      · rfl
      · exact (azureBlobMerge_keeps_hint _ _ _ _ _ _ _).1
    · exact (azureBlobMerge_keeps_hint _ _ _ _ _ _ _).1
  · unfold AzureBlobConfig
    simp only [hw]
    split
    · split
      · rfl
      · exact (azureBlobMerge_keeps_hint _ _ _ _ _ _ _).2
    · exact (azureBlobMerge_keeps_hint _ _ _ _ _ _ _).2

/-- Witness for `azureBlobConfig_wasb_hint` at the concrete world `blobW7`. -/
theorem azureBlobConfig_wasb_hint_witness :
    parseWasbHint blobW7 "https://explicit" "cont@host/path"
      = ("https://host/path", "cont", "path") ∧
    (AzureBlobConfig blobW7 chainWErr "https://explicit" "cont@host/path").1.Container
      = "cont" := by
  have h := azureBlobConfig_wasb_hint blobW7 chainWErr "https://explicit" "cont@host/path"
    "cont" "host/path" { hostname := "host", path := "/path" } (by decide) (by decide)
  exact ⟨h.1.trans (by decide), h.2.1⟩

/-! ## Claim C9 -/

/-- Counterexample to claim C9: with the key known, the endpoint empty and
account discovery failing (`blobW9` lists no accounts), the function does
synthesize the public-cloud endpoint, but it does NOT return a successful
result: the discovery error is returned in the named error return. -/
theorem azureBlobConfig_discovery_error_cx :
    (AzureBlobConfig blobW9 cwOk "" "").2.1 ≠ none ∧
    (AzureBlobConfig blobW9 cwOk "" "").2.1 = some "Azure account not found: acc" ∧
    (AzureBlobConfig blobW9 cwOk "" "").1.Endpoint = "https://acc.blob.core.windows.net" ∧
    (AzureBlobConfig blobW9 cwOk "" "").1.AccountKey = "k" :=
  ⟨by decide, by decide, by decide, by decide⟩

/-- Claim C9 as amended: when the account key is already known, the endpoint
is empty and control-plane discovery fails, the function still synthesizes
the standard public-cloud blob endpoint and fills the config from the known
values, but the discovery error is returned alongside (the named error
return is never cleared), not a successful no-error result. -/
theorem azureBlobConfig_discovery_error_returned
    (w : BlobWorld) (cw : ChainWorld) (wasb : String) (client : AccountsClient) (e : GoError)
    (hacct : w.envAccount ≠ "") (hkey : w.envKey ≠ "")
    (hwasb : splitAtFirst wasb '@' = none)
    (hclient : azureAccountsClient cw w.envAccount = Except.ok client)
    (hfind : azureFindAccount w client w.envAccount = Except.error e) :
    AzureBlobConfig w cw "" wasb
      = ({ Endpoint := "https://" ++ w.envAccount ++ ".blob."
             ++ publicCloudStorageEndpointSuffix,
           AccountName := w.envAccount, AccountKey := w.envKey,
           TokenRenewBuffer := fifteenMinutesNS, Container := "", Prefix := "" },
         some e, [BlobEffect.accountsClientConstruction, BlobEffect.accountList]) := by
  have hga : (w.envAccount == "") = false := by simpa using hacct
  have hgk : (w.envKey == "") = false := by simpa using hkey
  have hw : parseWasbHint w "" wasb = ("", "", "") := by
    unfold parseWasbHint
    simp only [hwasb]
  unfold AzureBlobConfig
  simp only [hw]
  unfold azureBlobMerge azureBlobIni azureBlobDiscover azureBlobFinish
  simp only [hga, hgk, hclient, hfind, Bool.or_self, Bool.false_eq_true, if_false,
    Bool.or_false, Bool.false_or, bne_self_eq_false, Bool.false_and, beq_self_eq_true,
    if_true, Bool.true_or]
  rfl

/-- Witness for `azureBlobConfig_discovery_error_returned` at the concrete
worlds `blobW9`/`cwOk`. -/
theorem azureBlobConfig_discovery_error_returned_witness :
    (AzureBlobConfig blobW9 cwOk "" "").2.1 = some "Azure account not found: acc" := by
  have h := azureBlobConfig_discovery_error_returned blobW9 cwOk ""
    { subscriptionID := "sub", authorizer := some (Authz.sdk "cp-auth") }
    "Azure account not found: acc" (by decide) (by decide) (by decide) (by decide) (by decide)
  rw [h]

/-! ## Claim C10 -/

/-- Claim C10: when `AzureBlobConfig` fails (here with the fatal
missing-account error), the config returned alongside the error is not the
zero value: `Container` and `Prefix` are already populated from the wasb
`'@'` hint, while `Endpoint`, `AccountName`, `AccountKey` and
`TokenRenewBuffer` remain unset. -/
theorem azureBlobConfig_partial_on_error :
    AzureBlobConfig blobW10 chainWErr "" "cont@host/path"
      = ({ Endpoint := "", AccountName := "", AccountKey := "", TokenRenewBuffer := 0,
           Container := "cont", Prefix := "path" },
         some (missingAccountMsg "/home/user/.azure"), []) ∧
    some (missingAccountMsg "/home/user/.azure") ≠ (none : Option GoError) ∧
    ("cont" : String) ≠ "" ∧ ("path" : String) ≠ "" :=
  ⟨by decide, by decide, by decide, by decide⟩
